import Mathlib

/-!
Shallow embedding of the `ahur4/nvd-client` repository (Python) and proofs
about its validation, date-conversion, query-building and dispatch logic.

The repository ships two package variants:
* `nvd_client` (underscore): `utils.py` works on `datetime` objects,
  `api.py` holds the `NvdApi` facade; modelled in namespace `Nvd_client`.
* `nvd-client` (hyphen): `utils.py` works on plain `YYYY-MM-DD` strings;
  modelled in namespace `Nvd_dash`.

Python strings are modelled as Lean `String` restricted to the ASCII
fragment the claims exercise (`\d` is modelled as the ten ASCII digits).
Machine-level details (HTTP transport, JSON parsing) are modelled as an
oracle `World`; the JSON document itself is opaque to the client and is
modelled as an opaque wrapper around its serialized text.
-/

namespace NvdSpec

/-- Opaque JSON document: the client returns the parsed body verbatim and
never inspects it, so only identity matters for the model. -/
structure Json where
  raw : String
deriving DecidableEq, Repr

/-- The three typed errors of `nvd_client/exceptions.py`; each carries the
payload its Python constructor stores (`date_str`, `missing_params`,
`cve_id`). -/
inductive NvdError where
  | invalidDateFormat (date_str : String)
  | invalidParameters (missing_params : List String)
  | invalidCveId (cve_id : String)
deriving DecidableEq, Repr

/-- A Python `datetime.datetime` value (naive, as used by the library). -/
structure Datetime where
  year : Nat
  month : Nat
  day : Nat
  hour : Nat
  minute : Nat
  second : Nat
  microsecond : Nat
deriving DecidableEq, Repr

/-- Field ranges enforced by the Python `datetime` constructor
(`MINYEAR = 1`, `MAXYEAR = 9999`); every constructible `datetime` object
satisfies this. -/
def Datetime.valid (d : Datetime) : Prop :=
  1 ≤ d.year ∧ d.year ≤ 9999 ∧ 1 ≤ d.month ∧ d.month ≤ 12 ∧
  1 ≤ d.day ∧ d.day ≤ 31 ∧ d.hour ≤ 23 ∧ d.minute ≤ 59 ∧
  d.second ≤ 59 ∧ d.microsecond ≤ 999999

instance (d : Datetime) : Decidable d.valid := by
  unfold Datetime.valid; infer_instance

/-- A Python value flowing into the datetime-variant utils: either a
`datetime` object or some other object (here: a string, which is also what
`NvdApi.get_cve_by_date` actually passes according to its annotations). -/
inductive PyVal where
  | dt (d : Datetime)
  | pystr (s : String)
deriving DecidableEq, Repr

/-- Python `str(x)` / f-string rendering for the values above (a `datetime`
renders in ISO form, but only the string case is ever rendered here). -/
def PyVal.pyRepr : PyVal → String
  | .dt d => toString d.year ++ "-" ++ toString d.month ++ "-" ++ toString d.day
  | .pystr s => s

/-- Python truthiness of an optional value: `None` and `""` are falsy,
`datetime` objects and non-empty strings are truthy. -/
def pyTruthyVal : Option PyVal → Bool
  | none => false
  | some (.dt _) => true
  | some (.pystr s) => !(s == "")

/-- Python truthiness of an optional string. -/
def pyTruthyStr : Option String → Bool
  | none => false
  | some s => !(s == "")

/-! ### Decimal digit rendering (strftime zero-padded fields) -/

/-- The decimal digit character for `n < 10` (only ever applied to values
reduced `% 10`). -/
def digitChar : Nat → Char
  | 0 => '0' | 1 => '1' | 2 => '2' | 3 => '3' | 4 => '4'
  | 5 => '5' | 6 => '6' | 7 => '7' | 8 => '8' | 9 => '9'
  | _ => '*'

/-- Numeric value of an ASCII digit character. -/
def charVal (c : Char) : Nat := c.toNat - 48

/-- ASCII model of the regex class `\d`. -/
def isDig (c : Char) : Bool :=
  c == '0' || c == '1' || c == '2' || c == '3' || c == '4' ||
  c == '5' || c == '6' || c == '7' || c == '8' || c == '9'

/-- strftime `%m` / `%d` / `%H` / `%M` / `%S`: zero-padded width-2 decimal
(exact for arguments below 100, which the datetime invariants guarantee). -/
def pad2 (n : Nat) : List Char := [digitChar (n / 10 % 10), digitChar (n % 10)]

/-- Zero-padded width-3 decimal (the millisecond part of the output). -/
def pad3 (n : Nat) : List Char :=
  [digitChar (n / 100 % 10), digitChar (n / 10 % 10), digitChar (n % 10)]

/-- strftime `%Y`: zero-padded width-4 decimal (exact for years up to 9999,
the `datetime` range). -/
def pad4 (n : Nat) : List Char :=
  [digitChar (n / 1000 % 10), digitChar (n / 100 % 10),
   digitChar (n / 10 % 10), digitChar (n % 10)]

/-- strftime `%f`: zero-padded width-6 decimal microseconds (exact for
values up to 999999, the `datetime` range). -/
def pad6 (n : Nat) : List Char :=
  [digitChar (n / 100000 % 10), digitChar (n / 10000 % 10),
   digitChar (n / 1000 % 10), digitChar (n / 100 % 10),
   digitChar (n / 10 % 10), digitChar (n % 10)]

/-- Python slice `s[:-3]`: all characters but the last three. -/
def pySliceToNeg3 (l : List Char) : List Char := l.take (l.length - 3)

/-- `date.strftime('%Y-%m-%dT%H:%M:%S.%f')` as a character list; the prefix
before `%f` is grouped so the microsecond field is the final block. -/
def Datetime.strftimeIsoMicroChars (d : Datetime) : List Char :=
  (pad4 d.year ++ ['-'] ++ pad2 d.month ++ ['-'] ++ pad2 d.day ++ ['T'] ++
   pad2 d.hour ++ [':'] ++ pad2 d.minute ++ [':'] ++ pad2 d.second ++ ['.'])
  ++ pad6 d.microsecond

/-! ### Python regex models

Both `utils.py` variants use `re.match` with patterns anchored `^...$`.
In Python, `$` matches at the end of the string or just before one final
newline, so `re.match(p, s)` succeeds iff the body matches all of `s` or
all of `s` minus one trailing newline. -/

/-- The trailing-newline alternative of Python `$`: the last character is a
newline and the body before it matches. -/
def tailNewlineCase (shape : List Char → Bool) (cs : List Char) : Bool :=
  match cs.reverse with
  | c :: t => c == '\n' && shape t.reverse
  | [] => false

/-- `re.match('^<shape>$', s) is not None` for a full-body matcher `shape`:
Python `$` also accepts one trailing newline. -/
def pyMatchDollar (shape : List Char → Bool) (s : String) : Bool :=
  shape s.data || tailNewlineCase shape s.data

/-- Full-body matcher for `CVE-\d{4}-\d{4,}` (`utils.py`, both variants). -/
def cveShape : List Char → Bool
  | c0 :: c1 :: c2 :: c3 :: y1 :: y2 :: y3 :: y4 :: c8 :: rest =>
      c0 == 'C' && c1 == 'V' && c2 == 'E' && c3 == '-' &&
      isDig y1 && isDig y2 && isDig y3 && isDig y4 && c8 == '-' &&
      decide (4 ≤ rest.length) && rest.all isDig
  | _ => false

/-- Full-body matcher for `\d{4}-\d{2}-\d{2}` (`nvd-client/utils.py`). -/
def dateShape10 : List Char → Bool
  | [a, b, c, d, e, f, g, h, i, j] =>
      isDig a && isDig b && isDig c && isDig d && e == '-' &&
      isDig f && isDig g && h == '-' && isDig i && isDig j
  | _ => false

/-- Gregorian leap-year test, as `datetime` implements it. -/
def isLeapYear (y : Nat) : Bool :=
  (y % 4 == 0 && !(y % 100 == 0)) || y % 400 == 0

/-- Day count of month `m` in year `y` (as enforced by the `datetime`
constructor that `strptime` calls). -/
def daysInMonth (y m : Nat) : Nat :=
  if m == 2 then (if isLeapYear y then 29 else 28)
  else if m == 4 || m == 6 || m == 9 || m == 11 then 30
  else 31

/-- The `datetime(year, month, day)` constructor accepts exactly these
triples (with at most four year digits, `year ≤ 9999` is automatic). -/
def validYMD (y m d : Nat) : Bool :=
  decide (1 ≤ y) && decide (1 ≤ m) && decide (m ≤ 12) &&
  decide (1 ≤ d) && decide (d ≤ daysInMonth y m)

/-! ### `datetime.strptime(s, '%Y-%m-%d')` -/

/-- Greedy digit scan of at most `n` leading digit characters (the
`_strptime` regex fragments `\d{1,4}` and `\d{1,2}`). -/
def takeUpTo (n : Nat) (cs : List Char) : List Char × List Char :=
  match n, cs with
  | 0, cs => ([], cs)
  | _ + 1, [] => ([], [])
  | n + 1, c :: cs =>
      if isDig c then
        let (ds, rest) := takeUpTo n cs
        (c :: ds, rest)
      else ([], c :: cs)

/-- Decimal value of a digit string (what `_strptime` feeds to `int`). -/
def natOfDigits (ds : List Char) : Nat :=
  ds.foldl (fun a c => 10 * a + charVal c) 0

/-- `datetime.strptime(s, '%Y-%m-%d')` on the character list: up to four
year digits, a dash, up to two month digits, a dash, up to two day digits,
no unconverted trailing data, and a constructible calendar date. -/
def strptimeYmdList (cs : List Char) : Option (Nat × Nat × Nat) :=
  match takeUpTo 4 cs with
  | ([], _) => none
  | (yd, r1) =>
    match r1 with
    | '-' :: r2 =>
      match takeUpTo 2 r2 with
      | ([], _) => none
      | (md, r3) =>
        match r3 with
        | '-' :: r4 =>
          match takeUpTo 2 r4 with
          | ([], _) => none
          | (dd, r5) =>
            if r5.isEmpty then
              let y := natOfDigits yd
              let m := natOfDigits md
              let d := natOfDigits dd
              if validYMD y m d then some (y, m, d) else none
            else none
        | _ => none
    | _ => none

/-! ### `nvd_client/utils.py` (datetime variant) -/

namespace Nvd_client

/-- The successful result of `convert_date_to_iso` on a `datetime` object:
`date.strftime('%Y-%m-%dT%H:%M:%S.%f')[:-3]`. -/
def dtIso (d : Datetime) : String :=
  String.mk (pySliceToNeg3 d.strftimeIsoMicroChars)

/-- `convert_date_to_iso(date)`: requires a `datetime` object, otherwise
raises `InvalidDateFormatError(f"Invalid datetime object: {date}")`. -/
def convert_date_to_iso : PyVal → Except NvdError String
  | .dt d => .ok (dtIso d)
  | .pystr s => .error (.invalidDateFormat ("Invalid datetime object: " ++ s))

/-- `validate_and_convert_dates(start_date, end_date, param_names)`:
truthiness-based both/either/neither dispatch. -/
def validate_and_convert_dates (start_date end_date : Option PyVal)
    (param_names : List String) :
    Except NvdError (Option String × Option String) :=
  if pyTruthyVal start_date && pyTruthyVal end_date then do
    let a ← convert_date_to_iso (start_date.getD (.pystr ""))
    let b ← convert_date_to_iso (end_date.getD (.pystr ""))
    return (some a, some b)
  else if pyTruthyVal start_date || pyTruthyVal end_date then
    .error (.invalidParameters param_names)
  else
    .ok (none, none)

end Nvd_client

/-- `validate_cve_id(cve_id)` (textually identical in both variants):
`True` on a regex match, otherwise raises `InvalidCVEIDError(cve_id)`. -/
def validate_cve_id (cve_id : String) : Except NvdError Bool :=
  if pyMatchDollar cveShape cve_id then .ok true
  else .error (.invalidCveId cve_id)

/-! ### `nvd-client/utils.py` (string variant) -/

namespace Nvd_dash

/-- `validate_date_format(date_str)`: regex shape check, then a `strptime`
parse to confirm a real calendar date. -/
def validate_date_format (date_str : String) : Bool :=
  if pyMatchDollar dateShape10 date_str then
    (strptimeYmdList date_str.data).isSome
  else false

/-- `convert_date_to_iso(date_str)`: validate, re-parse, then format via
`strftime('%Y-%m-%dT%H:%M:%S.%f')[:-3]`; otherwise raise
`InvalidDateFormatError(date_str)`. The inner `none` branch is unreachable
because validation already performed the same parse. -/
def convert_date_to_iso (date_str : String) : Except NvdError String :=
  if validate_date_format date_str then
    match strptimeYmdList date_str.data with
    | some (y, m, d) =>
        .ok (String.mk (pySliceToNeg3
          (Datetime.strftimeIsoMicroChars ⟨y, m, d, 0, 0, 0, 0⟩)))
    | none => .error (.invalidDateFormat date_str)
  else .error (.invalidDateFormat date_str)

/-- `validate_and_convert_dates(start_date, end_date, param_names)`:
truthiness-based both/either/neither dispatch over plain strings. -/
def validate_and_convert_dates (start_date end_date : Option String)
    (param_names : List String) :
    Except NvdError (Option String × Option String) :=
  if pyTruthyStr start_date && pyTruthyStr end_date then do
    let a ← convert_date_to_iso (start_date.getD "")
    let b ← convert_date_to_iso (end_date.getD "")
    return (some a, some b)
  else if pyTruthyStr start_date || pyTruthyStr end_date then
    .error (.invalidParameters param_names)
  else
    .ok (none, none)

end Nvd_dash

/-! ### `nvd_client/api.py` -/

/-- Immutable client configuration set by `NvdApi.__init__` (the two base
URLs are fixed literals, kept as top-level definitions below). -/
structure Client where
  api_key : Option String
  proxy : Option String
deriving DecidableEq, Repr

def base_url_cve : String := "https://services.nvd.nist.gov/rest/json/cves/2.0"

def base_url_cpe : String := "https://services.nvd.nist.gov/rest/json/cpematch/2.0"

/-- One `requests.get` call as observed at the transport boundary: the
URL, the header list, and the single proxy URL applied to both schemes of
the `proxies` dict (or `none` when no `proxies` argument was passed). -/
structure HttpRequest where
  url : String
  headers : List (String × String)
  proxies : Option String
deriving DecidableEq, Repr

/-- What the transport does with a request: either `requests.get` itself
raises (timeout, connection error, malformed response), or it yields a
response with a status code and a body that parses as JSON (`some`) or
does not (`none`, making `response.json()` raise). -/
inductive HttpResult where
  | transportError
  | response (status : Nat) (body : Option Json)
deriving DecidableEq, Repr

/-- Transport oracle: the environment's answer to each GET request. -/
abbrev World := HttpRequest → HttpResult

/-- Python `str.join` (CPython loop: first element, then separator-prefixed
elements). -/
def pyJoin (sep : String) : List String → String
  | [] => ""
  | x :: xs => xs.foldl (fun acc y => acc ++ sep ++ y) x

namespace NvdApi

/-- `NvdApi._verifier(params)`: the literal ampersand-joined query string
(f-string per pair, no percent-encoding). -/
def verifier (params : List (String × String)) : String :=
  pyJoin "&" (params.map (fun kv => kv.1 ++ "=" ++ kv.2))

/-- `requests.raise_for_status()` raises exactly for 4xx and 5xx codes. -/
def raiseForStatusFails (status : Nat) : Bool :=
  decide (400 ≤ status) && decide (status < 600)

/-- `NvdApi._make_request(params, type_of, proxy)`: builds the URL, picks
headers and proxies (the client-level `self.proxy` is tested first, the
per-call `proxy` only in the `elif`), issues one GET, and maps every raised
exception to `None`. Returns the Python result together with the list of
requests issued. -/
def make_request (c : Client) (w : World) (params : List (String × String))
    (type_of : String) (proxy : Option String) :
    Option Json × List HttpRequest :=
  let parameters := verifier params
  let link :=
    (if type_of == "cve" then base_url_cve else base_url_cpe) ++ "?" ++ parameters
  let headers :=
    if pyTruthyStr c.api_key then [("apiKey", c.api_key.getD "")] else []
  let chosenProxy : Option String :=
    if pyTruthyStr c.proxy then c.proxy
    else if pyTruthyStr proxy then proxy
    else none
  let req : HttpRequest := ⟨link, headers, chosenProxy⟩
  let result :=
    match w req with
    | .transportError => none
    | .response status body =>
        if raiseForStatusFails status then none else body
  (result, [req])

/-- `NvdApi.get_cve_by_id(cve_id, proxy)`: validate (raising on a bad id,
issuing nothing), then dispatch. The `else` branch (validation returning
`False`) is unreachable but kept: Python would return `None` there without
a request. -/
def get_cve_by_id (c : Client) (w : World) (cve_id : String)
    (proxy : Option String) :
    Except NvdError (Option Json) × List HttpRequest :=
  match validate_cve_id cve_id with
  | .error e => (.error e, [])
  | .ok b =>
      if b then
        let params := [("cveId", cve_id)]
        let r :=
          if pyTruthyStr proxy then make_request c w params "cve" proxy
          else make_request c w params "cve" none
        (.ok r.1, r.2)
      else (.ok none, [])

/-- `NvdApi.get_cve_by_date(...)`: resolve both date pairs (each may
raise, issuing nothing), assemble the ordered parameter dict, dispatch. -/
def get_cve_by_date (c : Client) (w : World) (per_page offset : Int)
    (publish_start_date publish_end_date modify_start_date modify_end_date :
      Option PyVal)
    (proxy : Option String) :
    Except NvdError (Option Json) × List HttpRequest :=
  match Nvd_client.validate_and_convert_dates publish_start_date
      publish_end_date ["publish_start_date", "publish_end_date"] with
  | .error e => (.error e, [])
  | .ok (ps2, pe2) =>
    match Nvd_client.validate_and_convert_dates modify_start_date
        modify_end_date ["modify_start_date", "modify_end_date"] with
    | .error e => (.error e, [])
    | .ok (ms2, me2) =>
      let params :=
        (if pyTruthyStr ps2 && pyTruthyStr pe2 then
          [("pubStartDate", ps2.getD ""), ("pubEndDate", pe2.getD "")]
        else []) ++
        (if pyTruthyStr ms2 && pyTruthyStr me2 then
          [("lastModStartDate", ms2.getD ""), ("lastModEndDate", me2.getD "")]
        else []) ++
        [("resultsPerPage", toString per_page), ("startIndex", toString offset)]
      let r :=
        if pyTruthyStr proxy then make_request c w params "cve" proxy
        else make_request c w params "cve" none
      (.ok r.1, r.2)

/-- `NvdApi.get_cpes_by_cve(cve_id, per_page, offset, proxy)`: validate the
id, then dispatch to the CPE-match endpoint; `per_page` is passed through
verbatim (the Python default is 500). -/
def get_cpes_by_cve (c : Client) (w : World) (cve_id : String)
    (per_page offset : Int) (proxy : Option String) :
    Except NvdError (Option Json) × List HttpRequest :=
  match validate_cve_id cve_id with
  | .error e => (.error e, [])
  | .ok b =>
      if b then
        let params := [("resultsPerPage", toString per_page),
                       ("startIndex", toString offset), ("cveId", cve_id)]
        let r :=
          if pyTruthyStr proxy then make_request c w params "cpe" proxy
          else make_request c w params "cpe" none
        (.ok r.1, r.2)
      else (.ok none, [])

/-- `NvdApi.get_cpes_by_criteria(criteria, per_page, offset, proxy)`: no
validation; `per_page` is passed through verbatim (Python default 500). -/
def get_cpes_by_criteria (c : Client) (w : World) (criteria : String)
    (per_page offset : Int) (proxy : Option String) :
    Except NvdError (Option Json) × List HttpRequest :=
  let params := [("resultsPerPage", toString per_page),
                 ("startIndex", toString offset),
                 ("matchStringSearch", criteria)]
  let r :=
    if pyTruthyStr proxy then make_request c w params "cpe" proxy
    else make_request c w params "cpe" none
  (.ok r.1, r.2)

/-- `NvdApi.get_cpes_by_criteria_name_id(criteria_name_id, ...)`: no
validation; `per_page` is passed through verbatim (Python default 500). -/
def get_cpes_by_criteria_name_id (c : Client) (w : World)
    (criteria_name_id : String) (per_page offset : Int)
    (proxy : Option String) :
    Except NvdError (Option Json) × List HttpRequest :=
  let params := [("resultsPerPage", toString per_page),
                 ("startIndex", toString offset),
                 ("matchCriteriaId", criteria_name_id)]
  let r :=
    if pyTruthyStr proxy then make_request c w params "cpe" proxy
    else make_request c w params "cpe" none
  (.ok r.1, r.2)

end NvdApi

/-! ### Spec-side characterizations

These definitions follow the specification's words, not the code; the
refinement theorems below compare the code's matchers against them. -/

/-- Spec-side reading of a full-string match of `CVE-\d{4}-\d{4,}`: the
text decomposes as `CVE-`, four digits, `-`, and at least four digits. -/
def specCveList (cs : List Char) : Prop :=
  ∃ ys qs : List Char,
    cs = 'C' :: 'V' :: 'E' :: '-' :: (ys ++ '-' :: qs) ∧
    ys.length = 4 ∧ (∀ c ∈ ys, isDig c = true) ∧
    4 ≤ qs.length ∧ (∀ c ∈ qs, isDig c = true)

/-- Spec-side reading of a valid plain date text: exactly the shape
`YYYY-MM-DD` and a constructible calendar date. -/
def specValidPlainDateList : List Char → Bool
  | [a, b, c, d, e, f, g, h, i, j] =>
      isDig a && isDig b && isDig c && isDig d && e == '-' &&
      isDig f && isDig g && h == '-' && isDig i && isDig j &&
      validYMD (1000 * charVal a + 100 * charVal b + 10 * charVal c + charVal d)
        (10 * charVal f + charVal g) (10 * charVal i + charVal j)
  | _ => false

/-- Spec-side reading of a valid plain date string. -/
def specValidPlainDate (s : String) : Bool := specValidPlainDateList s.data

/-- Spec-side reading of the query string: the `key=value` pairs joined by
single ampersands in list order. -/
def ampJoinSpec : List String → String
  | [] => ""
  | [x] => x
  | x :: xs => x ++ "&" ++ ampJoinSpec xs

/-! ### Helper lemmas -/

theorem strMkAppend (s t : String) : String.mk (s.data ++ t.data) = s ++ t := by
  cases s; cases t; rfl

theorem strAppendAssoc (a b c : String) : a ++ b ++ c = a ++ (b ++ c) := by
  cases a; cases b; cases c
  show String.mk _ = String.mk _
  simp [String.append]

theorem isDig_elim {c : Char} (h : isDig c = true) :
    charVal c ≤ 9 ∧ digitChar (charVal c) = c := by
  simp only [isDig, Bool.or_eq_true, beq_iff_eq] at h
  rcases h with ((((((((rfl | rfl) | rfl) | rfl) | rfl) | rfl) | rfl) | rfl) | rfl) | rfl <;>
    exact ⟨by decide, by decide⟩

theorem pad2_digits {f g : Char} (hf : isDig f = true) (hg : isDig g = true) :
    pad2 (10 * charVal f + charVal g) = [f, g] := by
  obtain ⟨hf9, hfc⟩ := isDig_elim hf
  obtain ⟨hg9, hgc⟩ := isDig_elim hg
  have e1 : (10 * charVal f + charVal g) / 10 % 10 = charVal f := by omega
  have e2 : (10 * charVal f + charVal g) % 10 = charVal g := by omega
  simp [pad2, e1, e2, hfc, hgc]

theorem pad4_digits {a b c d : Char} (ha : isDig a = true) (hb : isDig b = true)
    (hc : isDig c = true) (hd : isDig d = true) :
    pad4 (1000 * charVal a + 100 * charVal b + 10 * charVal c + charVal d) =
      [a, b, c, d] := by
  obtain ⟨ha9, hac⟩ := isDig_elim ha
  obtain ⟨hb9, hbc⟩ := isDig_elim hb
  obtain ⟨hc9, hcc⟩ := isDig_elim hc
  obtain ⟨hd9, hdc⟩ := isDig_elim hd
  have e1 : (1000 * charVal a + 100 * charVal b + 10 * charVal c + charVal d)
      / 1000 % 10 = charVal a := by omega
  have e2 : (1000 * charVal a + 100 * charVal b + 10 * charVal c + charVal d)
      / 100 % 10 = charVal b := by omega
  have e3 : (1000 * charVal a + 100 * charVal b + 10 * charVal c + charVal d)
      / 10 % 10 = charVal c := by omega
  have e4 : (1000 * charVal a + 100 * charVal b + 10 * charVal c + charVal d)
      % 10 = charVal d := by omega
  simp [pad4, e1, e2, e3, e4, hac, hbc, hcc, hdc]

/-- Dropping the last three characters of the 26-character microsecond
rendering keeps the 20-character prefix and truncates (never rounds) the
six microsecond digits to the three millisecond digits. -/
theorem sliceMicro (A : List Char) (us : Nat) (hA : A.length = 20) :
    pySliceToNeg3 (A ++ pad6 us) = A ++ pad3 (us / 1000) := by
  have hlen : (A ++ pad6 us).length = 26 := by simp [pad6, hA]
  have htake3 : (pad6 us).take 3 =
      [digitChar (us / 100000 % 10), digitChar (us / 10000 % 10),
       digitChar (us / 1000 % 10)] := rfl
  have e1 : us / 100000 = us / 1000 / 100 := by omega
  have e2 : us / 10000 = us / 1000 / 10 := by omega
  rw [pySliceToNeg3, hlen]
  show (A ++ pad6 us).take 23 = A ++ pad3 (us / 1000)
  rw [List.take_append_eq_append_take, List.take_of_length_le (by omega), hA]
  show A ++ (pad6 us).take 3 = A ++ pad3 (us / 1000)
  rw [htake3, pad3, e1, e2]

theorem takeUpTo_four {a b c d : Char} (rest : List Char)
    (ha : isDig a = true) (hb : isDig b = true) (hc : isDig c = true)
    (hd : isDig d = true) :
    takeUpTo 4 (a :: b :: c :: d :: rest) = ([a, b, c, d], rest) := by
  simp [takeUpTo, ha, hb, hc, hd]

theorem takeUpTo_two {a b : Char} (rest : List Char)
    (ha : isDig a = true) (hb : isDig b = true) :
    takeUpTo 2 (a :: b :: rest) = ([a, b], rest) := by
  simp [takeUpTo, ha, hb]

theorem natOfDigits_four (a b c d : Char) :
    natOfDigits [a, b, c, d] =
      1000 * charVal a + 100 * charVal b + 10 * charVal c + charVal d := by
  simp [natOfDigits, List.foldl]; ring

theorem natOfDigits_two (a b : Char) :
    natOfDigits [a, b] = 10 * charVal a + charVal b := by
  simp [natOfDigits, List.foldl]

theorem tailNewline_iff (shape : List Char → Bool) (cs : List Char) :
    tailNewlineCase shape cs = true ↔
      ∃ t, cs = t ++ ['\n'] ∧ shape t = true := by
  constructor
  · intro h
    unfold tailNewlineCase at h
    rcases hr : cs.reverse with _ | ⟨c, t⟩ <;> rw [hr] at h
    · simp at h
    · simp only [Bool.and_eq_true, beq_iff_eq] at h
      obtain ⟨rfl, hs⟩ := h
      refine ⟨t.reverse, ?_, hs⟩
      have hcs : cs = cs.reverse.reverse := (List.reverse_reverse cs).symm
      rw [hcs, hr]
      simp
  · rintro ⟨t, rfl, hs⟩
    unfold tailNewlineCase
    simp [List.reverse_append, hs]

theorem dateShape10_elim {cs : List Char} (hsh : dateShape10 cs = true) :
    ∃ a b c d f g i j : Char,
      cs = [a, b, c, d, '-', f, g, '-', i, j] ∧
      isDig a = true ∧ isDig b = true ∧ isDig c = true ∧ isDig d = true ∧
      isDig f = true ∧ isDig g = true ∧ isDig i = true ∧ isDig j = true := by
  rcases cs with _ | ⟨a, cs⟩; · simp [dateShape10] at hsh
  rcases cs with _ | ⟨b, cs⟩; · simp [dateShape10] at hsh
  rcases cs with _ | ⟨c, cs⟩; · simp [dateShape10] at hsh
  rcases cs with _ | ⟨d, cs⟩; · simp [dateShape10] at hsh
  rcases cs with _ | ⟨e, cs⟩; · simp [dateShape10] at hsh
  rcases cs with _ | ⟨f, cs⟩; · simp [dateShape10] at hsh
  rcases cs with _ | ⟨g, cs⟩; · simp [dateShape10] at hsh
  rcases cs with _ | ⟨h2, cs⟩; · simp [dateShape10] at hsh
  rcases cs with _ | ⟨i, cs⟩; · simp [dateShape10] at hsh
  rcases cs with _ | ⟨j, cs⟩; · simp [dateShape10] at hsh
  rcases cs with _ | ⟨k, cs⟩
  · simp only [dateShape10, Bool.and_eq_true, beq_iff_eq] at hsh
    obtain ⟨⟨⟨⟨⟨⟨⟨⟨⟨ha, hb⟩, hc⟩, hd⟩, he⟩, hf⟩, hg⟩, hh⟩, hi⟩, hj⟩ := hsh
    subst he; subst hh
    exact ⟨a, b, c, d, f, g, i, j, rfl, ha, hb, hc, hd, hf, hg, hi, hj⟩
  · simp [dateShape10] at hsh

theorem dateShape10_intro {a b c d f g i j : Char}
    (ha : isDig a = true) (hb : isDig b = true) (hc : isDig c = true)
    (hd : isDig d = true) (hf : isDig f = true) (hg : isDig g = true)
    (hi : isDig i = true) (hj : isDig j = true) :
    dateShape10 [a, b, c, d, '-', f, g, '-', i, j] = true := by
  simp [dateShape10, ha, hb, hc, hd, hf, hg, hi, hj]

theorem cveShape_iff (cs : List Char) :
    cveShape cs = true ↔ specCveList cs := by
  constructor
  · intro hsh
    rcases cs with _ | ⟨c0, cs⟩; · simp [cveShape] at hsh
    rcases cs with _ | ⟨c1, cs⟩; · simp [cveShape] at hsh
    rcases cs with _ | ⟨c2, cs⟩; · simp [cveShape] at hsh
    rcases cs with _ | ⟨c3, cs⟩; · simp [cveShape] at hsh
    rcases cs with _ | ⟨y1, cs⟩; · simp [cveShape] at hsh
    rcases cs with _ | ⟨y2, cs⟩; · simp [cveShape] at hsh
    rcases cs with _ | ⟨y3, cs⟩; · simp [cveShape] at hsh
    rcases cs with _ | ⟨y4, cs⟩; · simp [cveShape] at hsh
    rcases cs with _ | ⟨c8, rest⟩; · simp [cveShape] at hsh
    simp only [cveShape, Bool.and_eq_true, beq_iff_eq, decide_eq_true_eq,
      List.all_eq_true] at hsh
    obtain ⟨⟨⟨⟨⟨⟨⟨⟨⟨⟨h0, h1⟩, h2⟩, h3⟩, hy1⟩, hy2⟩, hy3⟩, hy4⟩, h8⟩, hlen⟩, hall⟩ := hsh
    subst h0; subst h1; subst h2; subst h3; subst h8
    refine ⟨[y1, y2, y3, y4], rest, by simp, by simp, ?_, hlen, hall⟩
    intro x hx
    simp only [List.mem_cons, List.not_mem_nil, or_false] at hx
    rcases hx with rfl | rfl | rfl | rfl <;> assumption
  · rintro ⟨ys, qs, rfl, hlen, hys, hqlen, hqs⟩
    rcases ys with _ | ⟨a, ys⟩; · simp at hlen
    rcases ys with _ | ⟨b, ys⟩; · simp at hlen
    rcases ys with _ | ⟨c, ys⟩; · simp at hlen
    rcases ys with _ | ⟨d, ys⟩; · simp at hlen
    rcases ys with _ | ⟨x, ys⟩
    · have ha := hys a (by simp)
      have hb := hys b (by simp)
      have hc := hys c (by simp)
      have hd := hys d (by simp)
      simp [cveShape, ha, hb, hc, hd, hqlen, List.all_eq_true.mpr hqs]
    · simp at hlen

/-- `strptime('%Y-%m-%d')` on a string of the guarded shape: succeeds iff
nothing trails the day digits and the decoded triple is a real calendar
date. -/
theorem strptime_shaped {a b c d f g i j : Char} (tail : List Char)
    (ha : isDig a = true) (hb : isDig b = true) (hc : isDig c = true)
    (hd : isDig d = true) (hf : isDig f = true) (hg : isDig g = true)
    (hi : isDig i = true) (hj : isDig j = true) :
    strptimeYmdList (a :: b :: c :: d :: '-' :: f :: g :: '-' :: i :: j :: tail) =
      if tail.isEmpty then
        (if validYMD (natOfDigits [a, b, c, d]) (natOfDigits [f, g])
            (natOfDigits [i, j]) then
          some (natOfDigits [a, b, c, d], natOfDigits [f, g], natOfDigits [i, j])
        else none)
      else none := by
  simp only [strptimeYmdList, takeUpTo_four _ ha hb hc hd,
    takeUpTo_two _ hf hg, takeUpTo_two _ hi hj]

theorem validate_cve_ok_iff (s : String) :
    validate_cve_id s = .ok true ↔
      (specCveList s.data ∨ ∃ t, s.data = t ++ ['\n'] ∧ specCveList t) := by
  have hm : pyMatchDollar cveShape s = true ↔
      (specCveList s.data ∨ ∃ t, s.data = t ++ ['\n'] ∧ specCveList t) := by
    rw [pyMatchDollar, Bool.or_eq_true, tailNewline_iff, cveShape_iff]
    constructor
    · rintro (h | ⟨t, ht, hsh⟩)
      · exact .inl h
      · exact .inr ⟨t, ht, (cveShape_iff _).mp hsh⟩
    · rintro (h | ⟨t, ht, hsp⟩)
      · exact .inl h
      · exact .inr ⟨t, ht, (cveShape_iff _).mpr hsp⟩
  unfold validate_cve_id
  cases hp : pyMatchDollar cveShape s
  · rw [← hm, hp]
    simp
  · rw [← hm, hp]
    simp

theorem validate_cve_cases (s : String) :
    validate_cve_id s = .ok true ∨
      validate_cve_id s = .error (.invalidCveId s) := by
  unfold validate_cve_id
  split
  · exact .inl rfl
  · exact .inr rfl

theorem specPlainList_elim {cs : List Char}
    (h : specValidPlainDateList cs = true) :
    ∃ a b c d f g i j : Char,
      cs = [a, b, c, d, '-', f, g, '-', i, j] ∧
      isDig a = true ∧ isDig b = true ∧ isDig c = true ∧ isDig d = true ∧
      isDig f = true ∧ isDig g = true ∧ isDig i = true ∧ isDig j = true ∧
      validYMD (1000 * charVal a + 100 * charVal b + 10 * charVal c + charVal d)
        (10 * charVal f + charVal g) (10 * charVal i + charVal j) = true := by
  rcases cs with _ | ⟨a, cs⟩; · simp [specValidPlainDateList] at h
  rcases cs with _ | ⟨b, cs⟩; · simp [specValidPlainDateList] at h
  rcases cs with _ | ⟨c, cs⟩; · simp [specValidPlainDateList] at h
  rcases cs with _ | ⟨d, cs⟩; · simp [specValidPlainDateList] at h
  rcases cs with _ | ⟨e, cs⟩; · simp [specValidPlainDateList] at h
  rcases cs with _ | ⟨f, cs⟩; · simp [specValidPlainDateList] at h
  rcases cs with _ | ⟨g, cs⟩; · simp [specValidPlainDateList] at h
  rcases cs with _ | ⟨h2, cs⟩; · simp [specValidPlainDateList] at h
  rcases cs with _ | ⟨i, cs⟩; · simp [specValidPlainDateList] at h
  rcases cs with _ | ⟨j, cs⟩; · simp [specValidPlainDateList] at h
  rcases cs with _ | ⟨k, cs⟩
  · simp only [specValidPlainDateList, Bool.and_eq_true, beq_iff_eq] at h
    obtain ⟨⟨⟨⟨⟨⟨⟨⟨⟨⟨ha, hb⟩, hc⟩, hd⟩, he⟩, hf⟩, hg⟩, hh⟩, hi⟩, hj⟩, hv⟩ := h
    subst he; subst hh
    exact ⟨a, b, c, d, f, g, i, j, rfl, ha, hb, hc, hd, hf, hg, hi, hj, hv⟩
  · simp [specValidPlainDateList] at h

/-- The string-variant boolean validator agrees exactly with the spec-side
characterization: plain `YYYY-MM-DD` shape and a real calendar date. -/
theorem validate_eq_specPlain (s : String) :
    Nvd_dash.validate_date_format s = true ↔ specValidPlainDate s = true := by
  unfold Nvd_dash.validate_date_format specValidPlainDate
  constructor
  · intro h
    split at h
    case isTrue hm =>
      rw [pyMatchDollar, Bool.or_eq_true] at hm
      rcases hm with hsh | hnl
      · obtain ⟨a, b, c, d, f, g, i, j, hdata, ha, hb, hc, hd, hf, hg, hi, hj⟩ :=
          dateShape10_elim hsh
        rw [hdata] at h ⊢
        rw [strptime_shaped [] ha hb hc hd hf hg hi hj] at h
        simp only [List.isEmpty_nil, if_true] at h
        by_cases hv : validYMD (natOfDigits [a, b, c, d]) (natOfDigits [f, g])
            (natOfDigits [i, j]) = true
        · rw [natOfDigits_four, natOfDigits_two, natOfDigits_two] at hv
          simp [specValidPlainDateList, ha, hb, hc, hd, hf, hg, hi, hj, hv]
        · rw [if_neg hv] at h
          exact absurd h (by simp)
      · obtain ⟨t, hdata, hsh⟩ := (tailNewline_iff _ _).mp hnl
        obtain ⟨a, b, c, d, f, g, i, j, ht, ha, hb, hc, hd, hf, hg, hi, hj⟩ :=
          dateShape10_elim hsh
        rw [hdata, ht] at h
        simp only [List.cons_append, List.nil_append] at h
        rw [strptime_shaped ['\n'] ha hb hc hd hf hg hi hj] at h
        simp at h
    case isFalse hm => exact absurd h (by simp)
  · intro hsp
    obtain ⟨a, b, c, d, f, g, i, j, hdata, ha, hb, hc, hd, hf, hg, hi, hj, hv⟩ :=
      specPlainList_elim hsp
    have hsh : dateShape10 s.data = true := by
      rw [hdata]; exact dateShape10_intro ha hb hc hd hf hg hi hj
    have hm : pyMatchDollar dateShape10 s = true := by
      rw [pyMatchDollar, Bool.or_eq_true]; exact .inl hsh
    rw [if_pos hm, hdata, strptime_shaped [] ha hb hc hd hf hg hi hj,
      natOfDigits_four, natOfDigits_two, natOfDigits_two]
    simp [hv]

/-- On a spec-valid plain date string, conversion succeeds and the original
ten characters round-trip as the prefix of the fixed midnight timestamp. -/
theorem convert_ok_of_spec {s : String} (hsp : specValidPlainDate s = true) :
    Nvd_dash.convert_date_to_iso s = .ok (s ++ "T00:00:00.000") := by
  obtain ⟨a, b, c, d, f, g, i, j, hdata, ha, hb, hc, hd, hf, hg, hi, hj, hv⟩ :=
    specPlainList_elim hsp
  have hval : Nvd_dash.validate_date_format s = true :=
    (validate_eq_specPlain s).mpr hsp
  unfold Nvd_dash.convert_date_to_iso
  rw [if_pos hval, hdata, strptime_shaped [] ha hb hc hd hf hg hi hj,
    natOfDigits_four, natOfDigits_two, natOfDigits_two]
  simp only [List.isEmpty_nil, if_true, hv]
  have hA : (pad4 (1000 * charVal a + 100 * charVal b + 10 * charVal c + charVal d)
      ++ ['-'] ++ pad2 (10 * charVal f + charVal g) ++ ['-']
      ++ pad2 (10 * charVal i + charVal j) ++ ['T'] ++ pad2 0 ++ [':']
      ++ pad2 0 ++ [':'] ++ pad2 0 ++ ['.']).length = 20 := by
    simp [pad4, pad2]
  rw [Datetime.strftimeIsoMicroChars]
  rw [sliceMicro _ _ hA]
  rw [pad4_digits ha hb hc hd, pad2_digits hf hg, pad2_digits hi hj]
  rw [show s ++ "T00:00:00.000" = String.mk (s.data ++ ("T00:00:00.000").data) from
    (strMkAppend s "T00:00:00.000").symm, hdata]
  have hT : ("T00:00:00.000" : String).data =
      ['T', '0', '0', ':', '0', '0', ':', '0', '0', '.', '0', '0', '0'] := rfl
  rw [hT]
  simp [pad2, pad3, digitChar]

theorem convert_err_of_not_spec {s : String}
    (hsp : specValidPlainDate s = false) :
    Nvd_dash.convert_date_to_iso s = .error (.invalidDateFormat s) := by
  have hval : Nvd_dash.validate_date_format s = false := by
    cases hvv : Nvd_dash.validate_date_format s
    · rfl
    · have hx := (validate_eq_specPlain s).mp hvv
      rw [hsp] at hx
      exact absurd hx (by simp)
  unfold Nvd_dash.convert_date_to_iso
  simp [hval]

theorem pyJoin_foldl_shift (xs : List String) (a b : String) :
    xs.foldl (fun acc y => acc ++ "&" ++ y) (a ++ b) =
      a ++ xs.foldl (fun acc y => acc ++ "&" ++ y) b := by
  induction xs generalizing b with
  | nil => rfl
  | cons y ys ih =>
      simp only [List.foldl_cons]
      rw [show a ++ b ++ "&" ++ y = a ++ (b ++ "&" ++ y) by
        rw [strAppendAssoc a b "&", strAppendAssoc a (b ++ "&") y]]
      exact ih (b ++ "&" ++ y)

theorem pyJoin_eq_ampJoinSpec (l : List String) :
    pyJoin "&" l = ampJoinSpec l := by
  induction l with
  | nil => rfl
  | cons x xs ih =>
      cases xs with
      | nil => rfl
      | cons y ys =>
          have h1 : pyJoin "&" (x :: y :: ys) =
              List.foldl (fun acc z => acc ++ "&" ++ z) (x ++ "&" ++ y) ys := rfl
          rw [h1, show x ++ "&" ++ y = (x ++ "&") ++ y from rfl,
            pyJoin_foldl_shift ys (x ++ "&") y]
          have h2 : pyJoin "&" (y :: ys) =
              List.foldl (fun acc z => acc ++ "&" ++ z) y ys := rfl
          rw [← h2, ih]
          rfl

/-! ### Claim theorems -/

/-- C1: for every pair of optional date arguments given to
`validate_and_convert_dates`, both-present returns both values converted to
ISO form, both-absent returns the absent pair, and exactly-one-present
raises `InvalidParametersError` carrying exactly the two names passed in.
Shown for both variants: datetime inputs (`nvd_client`) and plain
spec-valid date strings (`nvd-client`). -/
theorem c1_resolver_cases (names : List String) (sd ed : Datetime)
    (s e : String) (hs : specValidPlainDate s = true)
    (he2 : specValidPlainDate e = true) :
    (Nvd_client.validate_and_convert_dates (some (.dt sd)) (some (.dt ed)) names
        = .ok (some (Nvd_client.dtIso sd), some (Nvd_client.dtIso ed))
      ∧ Nvd_client.validate_and_convert_dates none none names = .ok (none, none)
      ∧ Nvd_client.validate_and_convert_dates (some (.dt sd)) none names
          = .error (.invalidParameters names)
      ∧ Nvd_client.validate_and_convert_dates none (some (.dt ed)) names
          = .error (.invalidParameters names))
    ∧ (Nvd_dash.validate_and_convert_dates (some s) (some e) names
        = .ok (some (s ++ "T00:00:00.000"), some (e ++ "T00:00:00.000"))
      ∧ Nvd_dash.validate_and_convert_dates none none names = .ok (none, none)
      ∧ Nvd_dash.validate_and_convert_dates (some s) none names
          = .error (.invalidParameters names)
      ∧ Nvd_dash.validate_and_convert_dates none (some s) names
          = .error (.invalidParameters names)) := by
  obtain ⟨a, b, c, d, f, g, i, j, hdata, -⟩ := specPlainList_elim hs
  obtain ⟨a2, b2, c2, d2, f2, g2, i2, j2, hedata, -⟩ := specPlainList_elim he2
  have hsne : (s == "") = false := by
    rw [beq_eq_false_iff_ne]
    intro h0
    rw [h0] at hdata
    exact absurd hdata (by simp)
  have hene : (e == "") = false := by
    rw [beq_eq_false_iff_ne]
    intro h0
    rw [h0] at hedata
    exact absurd hedata (by simp)
  refine ⟨⟨rfl, rfl, rfl, rfl⟩, ?_, rfl, ?_, ?_⟩
  · have h1 : Nvd_dash.convert_date_to_iso ((some s).getD "")
        = .ok (s ++ "T00:00:00.000") := convert_ok_of_spec hs
    have h2 : Nvd_dash.convert_date_to_iso ((some e).getD "")
        = .ok (e ++ "T00:00:00.000") := convert_ok_of_spec he2
    simp only [Nvd_dash.validate_and_convert_dates, pyTruthyStr, hsne, hene,
      Bool.not_false, Bool.and_self, if_true]
    rw [h1, h2]
    exact rfl
  · simp [Nvd_dash.validate_and_convert_dates, pyTruthyStr, hsne]
  · simp [Nvd_dash.validate_and_convert_dates, pyTruthyStr, hsne]

theorem c1_resolver_cases_check :
    specValidPlainDate "2024-01-02" = true ∧
    specValidPlainDate "2024-03-04" = true ∧
    Nvd_client.validate_and_convert_dates
        (some (.dt ⟨2024, 1, 2, 0, 0, 0, 0⟩)) none ["a", "b"]
      = .error (.invalidParameters ["a", "b"]) ∧
    Nvd_dash.validate_and_convert_dates
        (some "2024-01-02") (some "2024-03-04") ["a", "b"]
      = .ok (some "2024-01-02T00:00:00.000", some "2024-03-04T00:00:00.000") := by
  have h := c1_resolver_cases ["a", "b"] ⟨2024, 1, 2, 0, 0, 0, 0⟩
    ⟨2024, 1, 2, 0, 0, 0, 0⟩ "2024-01-02" "2024-03-04" (by decide) (by decide)
  exact ⟨by decide, by decide, h.1.2.2.1, h.2.1⟩

/-- C2 counterexample: a CVE id followed by one newline is not a
full-string match of the pattern, yet `validate_cve_id` returns `True`
instead of raising, because Python `$` also matches before one trailing
newline. -/
theorem c2_cve_newline_cex :
    validate_cve_id "CVE-2024-1234\n" = .ok true ∧
    ¬ specCveList (String.data "CVE-2024-1234\n") := by
  constructor
  · rfl
  · intro hsp
    have hx := (cveShape_iff _).mpr hsp
    exact absurd hx (by decide)

/-- C2 (amended): `validate_cve_id` returns `True` exactly on strings
matching `CVE-\d{4}-\d{4,}` either in full or up to one trailing newline
(Python dollar-anchor semantics); on every other string it raises
`InvalidCVEIDError` carrying the offending string, and it never returns
`False`. -/
theorem c2_cve_validation (s : String) :
    (validate_cve_id s = .ok true ↔
      (specCveList s.data ∨ ∃ t, s.data = t ++ ['\n'] ∧ specCveList t))
    ∧ (validate_cve_id s = .ok true ∨
        validate_cve_id s = .error (.invalidCveId s)) :=
  ⟨validate_cve_ok_iff s, validate_cve_cases s⟩

/-- C3 counterexample: with a client-level default proxy and a different
per-call proxy both supplied, the issued request is routed through the
client-level default, not the per-call proxy. -/
theorem c3_proxy_cex :
    (NvdApi.make_request ⟨none, some "socks5://client-default"⟩
        (fun _ => HttpResult.response 200 (some ⟨"{}"⟩)) [] "cve"
        (some "socks5://per-call")).2.map HttpRequest.proxies
      = [some "socks5://client-default"] ∧
    some "socks5://client-default" ≠ some "socks5://per-call" := by
  exact ⟨rfl, by decide⟩

/-- C3 (amended): the client-level default proxy takes precedence: whenever
it is truthy every issued request uses it, whatever per-call proxy was
supplied; the per-call proxy is used only when the client-level default is
absent or falsy. -/
theorem c3_proxy_priority (c : Client) (w : World)
    (ps : List (String × String)) (t : String) (p : Option String) :
    (pyTruthyStr c.proxy = true →
      (NvdApi.make_request c w ps t p).2.map HttpRequest.proxies = [c.proxy])
    ∧ (pyTruthyStr c.proxy = false → pyTruthyStr p = true →
      (NvdApi.make_request c w ps t p).2.map HttpRequest.proxies = [p]) := by
  constructor
  · intro h
    simp [NvdApi.make_request, h]
  · intro h hp
    simp [NvdApi.make_request, h, hp]

theorem c3_proxy_priority_check :
    pyTruthyStr (some "socks5://a" : Option String) = true ∧
    (NvdApi.make_request ⟨none, some "socks5://a"⟩
        (fun _ => HttpResult.transportError) [] "cve"
        (some "socks5://b")).2.map HttpRequest.proxies
      = [some "socks5://a"] :=
  ⟨by decide,
    (c3_proxy_priority ⟨none, some "socks5://a"⟩
      (fun _ => HttpResult.transportError) [] "cve"
      (some "socks5://b")).1 (by decide)⟩

/-- C4 counterexample: a 304 response (an HTTP status outside 2xx, which
`raise_for_status` does not flag) whose body parses as JSON is returned,
not collapsed to the absent result as the claim states. -/
theorem c4_non2xx_cex :
    (NvdApi.make_request ⟨none, none⟩
        (fun _ => HttpResult.response 304 (some ⟨"{}"⟩)) [] "cve" none).1
      = some ⟨"{}"⟩ ∧
    ¬ (200 ≤ 304 ∧ 304 < 300) := by
  exact ⟨rfl, by decide⟩

/-- C4 (amended): `_make_request` issues exactly one request and never
propagates a failure: a transport-level error, a 4xx/5xx status (the
statuses `raise_for_status` flags), or an unparseable body yields the
absent result, while any other status with a JSON body yields the parsed
body unmodified. -/
theorem c4_dispatch_total (c : Client) (w : World)
    (ps : List (String × String)) (t : String) (p : Option String) :
    ∃ r : HttpRequest, (NvdApi.make_request c w ps t p).2 = [r] ∧
      (w r = .transportError → (NvdApi.make_request c w ps t p).1 = none) ∧
      (∀ status body, w r = .response status body → 400 ≤ status →
        status < 600 → (NvdApi.make_request c w ps t p).1 = none) ∧
      (∀ status, w r = .response status none →
        (NvdApi.make_request c w ps t p).1 = none) ∧
      (∀ status j, w r = .response status (some j) →
        ¬ (400 ≤ status ∧ status < 600) →
        (NvdApi.make_request c w ps t p).1 = some j) := by
  refine ⟨_, rfl, ?_, ?_, ?_, ?_⟩
  · intro hw
    simp only [NvdApi.make_request]
    rw [hw]
  · intro status body hw h4 h6
    have hrs : NvdApi.raiseForStatusFails status = true := by
      simp [NvdApi.raiseForStatusFails, h4, h6]
    simp only [NvdApi.make_request]
    rw [hw]
    simp [hrs]
  · intro status hw
    simp only [NvdApi.make_request]
    rw [hw]
    simp
  · intro status j hw hns
    have hrs : NvdApi.raiseForStatusFails status = false := by
      rw [NvdApi.raiseForStatusFails]
      rcases Nat.lt_or_ge status 400 with hlt | hge
      · simp [Nat.not_le.mpr hlt]
      · have h6 : ¬ status < 600 := fun hc => hns ⟨hge, hc⟩
        simp [h6]
    simp only [NvdApi.make_request]
    rw [hw]
    simp [hrs]

theorem c4_dispatch_total_check :
    (NvdApi.make_request ⟨none, none⟩
        (fun _ => HttpResult.response 503 none) [] "cve" none).1 = none := by
  obtain ⟨r, -, -, herr, -, -⟩ := c4_dispatch_total ⟨none, none⟩
    (fun _ => HttpResult.response 503 none) [] "cve" none
  exact herr 503 none rfl (by decide) (by decide)

/-- C5: validation failures never reach the network: a CVE id rejected by
`validate_cve_id` or a date pair rejected by `validate_and_convert_dates`
surfaces as the typed error with an empty list of issued requests. -/
theorem c5_validation_before_dispatch :
    (∀ (c : Client) (w : World) (cve_id : String) (p : Option String)
      (err : NvdError),
      validate_cve_id cve_id = .error err →
      NvdApi.get_cve_by_id c w cve_id p = (.error err, []))
    ∧ (∀ (c : Client) (w : World) (pp off : Int)
      (psd ped msd med : Option PyVal) (p : Option String) (err : NvdError),
      Nvd_client.validate_and_convert_dates psd ped
          ["publish_start_date", "publish_end_date"] = .error err →
      NvdApi.get_cve_by_date c w pp off psd ped msd med p = (.error err, []))
    ∧ (∀ (c : Client) (w : World) (pp off : Int)
      (psd ped msd med : Option PyVal) (p : Option String)
      (res : Option String × Option String) (err : NvdError),
      Nvd_client.validate_and_convert_dates psd ped
          ["publish_start_date", "publish_end_date"] = .ok res →
      Nvd_client.validate_and_convert_dates msd med
          ["modify_start_date", "modify_end_date"] = .error err →
      NvdApi.get_cve_by_date c w pp off psd ped msd med p = (.error err, [])) := by
  refine ⟨?_, ?_, ?_⟩
  · intro c w cve_id p err h
    unfold NvdApi.get_cve_by_id
    rw [h]
  · intro c w pp off psd ped msd med p err h
    unfold NvdApi.get_cve_by_date
    rw [h]
  · intro c w pp off psd ped msd med p res err hok herr
    obtain ⟨r1, r2⟩ := res
    unfold NvdApi.get_cve_by_date
    rw [hok, herr]

theorem c5_validation_before_dispatch_check :
    validate_cve_id "not-a-cve" = .error (.invalidCveId "not-a-cve") ∧
    NvdApi.get_cve_by_id ⟨none, none⟩ (fun _ => HttpResult.transportError)
        "not-a-cve" none
      = (.error (.invalidCveId "not-a-cve"), []) :=
  ⟨by rfl,
    c5_validation_before_dispatch.1 ⟨none, none⟩
      (fun _ => HttpResult.transportError) "not-a-cve" none
      (.invalidCveId "not-a-cve") (by rfl)⟩

/-- C6: on every valid `datetime`, `convert_date_to_iso` produces the
23-character `YYYY-MM-DDTHH:MM:SS.mmm` string with the microseconds
truncated (not rounded) to milliseconds and no timezone suffix; on every
non-datetime input it raises `InvalidDateFormatError` carrying the
offending value inside its message. -/
theorem c6_dt_convert (d : Datetime) (h : d.valid) :
    Nvd_client.convert_date_to_iso (.dt d)
      = .ok (String.mk (pad4 d.year ++ ['-'] ++ pad2 d.month ++ ['-'] ++
          pad2 d.day ++ ['T'] ++ pad2 d.hour ++ [':'] ++ pad2 d.minute ++
          [':'] ++ pad2 d.second ++ ['.'] ++ pad3 (d.microsecond / 1000)))
    ∧ (Nvd_client.dtIso d).length = 23
    ∧ (∀ s, Nvd_client.convert_date_to_iso (.pystr s)
        = .error (.invalidDateFormat ("Invalid datetime object: " ++ s))) := by
  have hA : (pad4 d.year ++ ['-'] ++ pad2 d.month ++ ['-'] ++ pad2 d.day ++
      ['T'] ++ pad2 d.hour ++ [':'] ++ pad2 d.minute ++ [':'] ++
      pad2 d.second ++ ['.']).length = 20 := by
    simp [pad4, pad2]
  refine ⟨?_, ?_, fun s => rfl⟩
  · show Except.ok (Nvd_client.dtIso d) = _
    rw [Nvd_client.dtIso, Datetime.strftimeIsoMicroChars, sliceMicro _ _ hA]
  · rw [Nvd_client.dtIso, Datetime.strftimeIsoMicroChars, sliceMicro _ _ hA]
    show (pad4 d.year ++ ['-'] ++ pad2 d.month ++ ['-'] ++ pad2 d.day ++
      ['T'] ++ pad2 d.hour ++ [':'] ++ pad2 d.minute ++ [':'] ++
      pad2 d.second ++ ['.'] ++ pad3 (d.microsecond / 1000)).length = 23
    simp [pad4, pad2, pad3]

theorem c6_dt_convert_check :
    (⟨2024, 1, 2, 3, 4, 5, 123456⟩ : Datetime).valid ∧
    Nvd_client.convert_date_to_iso (.dt ⟨2024, 1, 2, 3, 4, 5, 123456⟩)
      = .ok "2024-01-02T03:04:05.123" := by
  have h := c6_dt_convert ⟨2024, 1, 2, 3, 4, 5, 123456⟩ (by decide)
  refine ⟨by decide, ?_⟩
  rw [h.1]
  rfl

/-- C7: the string-variant converter accepts exactly the spec-valid plain
`YYYY-MM-DD` strings denoting real calendar dates; on those it returns the
original date as the first ten characters of `...T00:00:00.000`, on all
other strings it raises `InvalidDateFormatError`, and
`validate_date_format` is true exactly on the valid strings. -/
theorem c7_plain_date_conversion (s : String) :
    (Nvd_dash.validate_date_format s = true ↔ specValidPlainDate s = true)
    ∧ (specValidPlainDate s = true →
        Nvd_dash.convert_date_to_iso s = .ok (s ++ "T00:00:00.000"))
    ∧ (specValidPlainDate s = false →
        Nvd_dash.convert_date_to_iso s = .error (.invalidDateFormat s)) :=
  ⟨validate_eq_specPlain s, fun h => convert_ok_of_spec h,
    fun h => convert_err_of_not_spec h⟩

theorem c7_plain_date_conversion_check :
    specValidPlainDate "2024-02-29" = true ∧
    Nvd_dash.convert_date_to_iso "2024-02-29" = .ok "2024-02-29T00:00:00.000" ∧
    specValidPlainDate "2024-02-30" = false ∧
    Nvd_dash.convert_date_to_iso "2024-02-30"
      = .error (.invalidDateFormat "2024-02-30") := by
  refine ⟨by decide, ?_, by decide, ?_⟩
  · have h := (c7_plain_date_conversion "2024-02-29").2.1 (by decide)
    rw [h]
    rfl
  · exact (c7_plain_date_conversion "2024-02-30").2.2 (by decide)

/-- C8: `_verifier` is deterministic and order-preserving: it produces the
ampersand-joined `key=value` rendering of the pairs in list order with no
percent-encoding, and identical inputs yield identical query strings. -/
theorem c8_query_join (ps : List (String × String)) :
    NvdApi.verifier ps = ampJoinSpec (ps.map (fun kv => kv.1 ++ "=" ++ kv.2))
    ∧ ∀ qs, ps = qs → NvdApi.verifier ps = NvdApi.verifier qs :=
  ⟨pyJoin_eq_ampJoinSpec _, fun _ h => by rw [h]⟩

theorem c8_query_join_check :
    NvdApi.verifier [("a", "1"), ("b", "2")] = "a=1&b=2" ∧
    NvdApi.verifier [("a", "1"), ("b", "2")]
      = NvdApi.verifier [("a", "1"), ("b", "2")] := by
  have h := c8_query_join [("a", "1"), ("b", "2")]
  exact ⟨by rw [h.1]; rfl, h.2 [("a", "1"), ("b", "2")] rfl⟩

/-- C9 counterexample: `get_cpes_by_criteria` called with a page size of
501 issues a query whose `resultsPerPage` is 501, exceeding the claimed
500 ceiling. -/
theorem c9_per_page_cex :
    (NvdApi.get_cpes_by_criteria ⟨none, none⟩
        (fun _ => HttpResult.transportError) "x" 501 0 none).2.map
        HttpRequest.url
      = ["https://services.nvd.nist.gov/rest/json/cpematch/2.0?resultsPerPage=501&startIndex=0&matchStringSearch=x"]
    ∧ (500 : Int) < 501 := by
  exact ⟨rfl, by decide⟩

/-- C9 (amended): the three CPE-match operations pass the caller's
`per_page` through verbatim (the Python default is 500, but no ceiling is
enforced): the issued query's `resultsPerPage` is exactly the supplied
value. -/
theorem c9_per_page_passthrough (c : Client) (w : World) (idOrCrit : String)
    (pp off : Int) (p : Option String) :
    ((NvdApi.get_cpes_by_criteria c w idOrCrit pp off p).2.map HttpRequest.url
      = [base_url_cpe ++ "?" ++ NvdApi.verifier
          [("resultsPerPage", toString pp), ("startIndex", toString off),
           ("matchStringSearch", idOrCrit)]])
    ∧ ((NvdApi.get_cpes_by_criteria_name_id c w idOrCrit pp off p).2.map
        HttpRequest.url
      = [base_url_cpe ++ "?" ++ NvdApi.verifier
          [("resultsPerPage", toString pp), ("startIndex", toString off),
           ("matchCriteriaId", idOrCrit)]])
    ∧ (validate_cve_id idOrCrit = .ok true →
      (NvdApi.get_cpes_by_cve c w idOrCrit pp off p).2.map HttpRequest.url
        = [base_url_cpe ++ "?" ++ NvdApi.verifier
            [("resultsPerPage", toString pp), ("startIndex", toString off),
             ("cveId", idOrCrit)]]) := by
  refine ⟨?_, ?_, ?_⟩
  · unfold NvdApi.get_cpes_by_criteria
    split <;> simp [NvdApi.make_request]
  · unfold NvdApi.get_cpes_by_criteria_name_id
    split <;> simp [NvdApi.make_request]
  · intro h
    unfold NvdApi.get_cpes_by_cve
    rw [h]
    simp only [if_true]
    split <;> simp [NvdApi.make_request]

theorem c9_per_page_passthrough_check :
    validate_cve_id "CVE-2024-1234" = .ok true ∧
    (NvdApi.get_cpes_by_cve ⟨none, none⟩ (fun _ => HttpResult.transportError)
        "CVE-2024-1234" 777 0 none).2.map HttpRequest.url
      = [base_url_cpe ++ "?" ++ NvdApi.verifier
          [("resultsPerPage", toString (777 : Int)),
           ("startIndex", toString (0 : Int)), ("cveId", "CVE-2024-1234")]] :=
  ⟨by rfl,
    (c9_per_page_passthrough ⟨none, none⟩ (fun _ => HttpResult.transportError)
      "CVE-2024-1234" 777 0 none).2.2 (by rfl)⟩

/-- C10: the string-variant resolver distinguishes present from absent by
truthiness: two supplied empty strings yield the absent pair, and an empty
string paired with a non-empty one raises `InvalidParametersError` even
though both arguments were supplied. -/
theorem c10_truthiness_resolver (names : List String) :
    Nvd_dash.validate_and_convert_dates (some "") (some "") names
      = .ok (none, none)
    ∧ ∀ s : String, s ≠ "" →
      (Nvd_dash.validate_and_convert_dates (some "") (some s) names
          = .error (.invalidParameters names)
        ∧ Nvd_dash.validate_and_convert_dates (some s) (some "") names
          = .error (.invalidParameters names)) := by
  refine ⟨rfl, ?_⟩
  intro s hs
  have hbeq : (s == "") = false := by
    rw [beq_eq_false_iff_ne]
    exact hs
  constructor <;> simp [Nvd_dash.validate_and_convert_dates, pyTruthyStr, hbeq]

theorem c10_truthiness_resolver_check :
    ("2024-01-02" : String) ≠ "" ∧
    Nvd_dash.validate_and_convert_dates (some "") (some "2024-01-02")
        ["a", "b"]
      = .error (.invalidParameters ["a", "b"]) :=
  ⟨by decide,
    ((c10_truthiness_resolver ["a", "b"]).2 "2024-01-02" (by decide)).1⟩

end NvdSpec
